import Mathlib

/-!
Verification of the Longhorn Volume Manager (`main.go`) against its
natural-language specification.

The Go program is shallowly embedded: every Kubernetes API call is modelled
as a lookup in an `Env` record that fixes the response of each external
call (the cluster is treated as a deterministic environment for the
duration of one invocation), and every embedded function returns its
result together with a trace of the external operations (`Op`) it
performed, in program order.  Poll loops are embedded with explicit fuel
equal to the hardcoded iteration bound of the source and also return the
number of polls performed.
-/

namespace LonghornTools

/-- Phase of a Kubernetes pod (`pod.Status.Phase`); only `Running` is ever
inspected by the source. -/
inductive PodPhase
  | Running
  | Pending
  | Succeeded
  | Failed
  | Unknown
deriving DecidableEq, Repr

/-- Phase of a PersistentVolumeClaim (`pvc.Status.Phase`); only `Bound` is
ever inspected by the source. -/
inductive ClaimPhase
  | Bound
  | Pending
  | Lost
deriving DecidableEq, Repr

/-- Error returned by a Kubernetes get/list call.  `notFound` is the
`IsNotFound` class of errors; `other` is any other API error.  The
distinction matters for the get-or-create claims: the source never
inspects which kind it got. -/
inductive ApiErr
  | notFound
  | other (msg : String)
deriving DecidableEq, Repr

/-- A container's volume mount (`corev1.VolumeMount`): mount name and
in-container path. -/
structure VolumeMount where
  name : String
  mountPath : String
deriving DecidableEq, Repr

/-- A container in a pod spec (`corev1.Container`): name and volume mounts. -/
structure Container where
  name : String
  volumeMounts : List VolumeMount
deriving DecidableEq, Repr

/-- A volume entry of a pod spec (`corev1.Volume`): its name and, when it is
backed by a claim, the claim name (`PersistentVolumeClaim.ClaimName`);
`none` models a nil `PersistentVolumeClaim` source. -/
structure PodVolume where
  name : String
  claimName : Option String
deriving DecidableEq, Repr

/-- A pod as the source reads it: name, phase, spec volumes, spec containers. -/
structure Pod where
  name : String
  phase : PodPhase
  volumes : List PodVolume
  containers : List Container
deriving DecidableEq, Repr

/-- A PersistentVolumeClaim as the source reads it: name, the PV it is bound
to (`Spec.VolumeName`) and its phase. -/
structure PVC where
  name : String
  volumeName : String
  phase : ClaimPhase
deriving DecidableEq, Repr

/-- A Longhorn volume as decoded by `getLonghornVolumes`: name, size, state
and the PV name recorded in `status.kubernetesStatus.pvName` (empty string
when absent, as in the Go struct's zero value). -/
structure LonghornVolume where
  name : String
  size : String
  state : String
  pvName : String
deriving DecidableEq, Repr

/-- External operations performed by the embedded functions, recorded in
program order.  `snapshotAccessMarker` records the announcement printed at
the entry of `createSnapshotBasedAccess` ("Creating temporary RWX volume
for multi-attach access to %s..."), marking that the indirect/snapshot
fallback path was entered.  `prompt` records the confirmation prompt of
the cleanup sweep, `warn` a printed "Warning: ..." line, `stream` the
start of the producer/consumer streaming transfer. -/
inductive Op
  | listVolumes
  | listPVCs
  | listPods
  | listPVs
  | getPV (name : String)
  | createPV (name : String)
  | getPVC (name : String)
  | createPVC (name : String)
  | getPod (name : String)
  | createPod (name : String)
  | deletePod (name : String)
  | deletePVC (name : String)
  | deletePV (name : String)
  | prompt
  | warn (msg : String)
  | execCmd (pod : String) (cmd : List String)
  | stream
  | snapshotAccessMarker (volumeName : String)
deriving DecidableEq, Repr

/-- The deterministic environment of one invocation: the response of every
external call the resolver/provisioner chain can make.  List calls return
the whole collection or a list error; get calls are keyed by object name;
`pollPVC i` / `pollPod i` are the results of the i-th status poll inside
the bounded wait loops; `exec` is the remote command channel. -/
structure Env where
  volumes : Except String (List LonghornVolume)
  pvcList : Except String (List PVC)
  podList : Except String (List Pod)
  getPV : String → Except ApiErr Unit
  createPV : String → Except String Unit
  getPVC : String → Except ApiErr Unit
  createPVC : String → Except String Unit
  pollPVC : Nat → Except String ClaimPhase
  getPod : String → Except ApiErr PodPhase
  createPod : String → Except String Unit
  pollPod : Nat → Except String PodPhase
  exec : String → String → List String → Except String Unit

/-- An access handle: (pod name, mount path, container name), the order in
which `getVolumeInfo` returns them. -/
abbrev Handle := String × String × String

/-- Embeds `getLonghornVolumes`: the dynamic list call, wrapping a list
error with operation context. -/
def getLonghornVolumes (env : Env) : Except String (List LonghornVolume) :=
  match env.volumes with
  | .error e => .error ("failed to list Longhorn volumes: " ++ e)
  | .ok vs => .ok vs

/-- Embeds `getLonghornVolume`: first volume with the given name, else a
not-found error. -/
def getLonghornVolume (env : Env) (volumeName : String) : Except String LonghornVolume :=
  match getLonghornVolumes env with
  | .error e => .error e
  | .ok vs =>
    match vs.find? (fun v => v.name == volumeName) with
    | some v => .ok v
    | none => .error ("Longhorn volume " ++ volumeName ++ " not found")

/-- Embeds `isVolumeInUse`: list claims, take the first claim bound to the
given PV; if none, the volume is not in use; otherwise list pods and
report whether any running pod references that claim. -/
def isVolumeInUse (env : Env) (pvName : String) : Except String Bool × List Op :=
  match env.pvcList with
  | .error e => (.error ("failed to list PVCs: " ++ e), [Op.listPVCs])
  | .ok pvcs =>
    match pvcs.find? (fun pvc => pvc.volumeName == pvName && pvc.phase == ClaimPhase.Bound) with
    | none => (.ok false, [Op.listPVCs])
    | some target =>
      match env.podList with
      | .error e => (.error ("failed to list pods: " ++ e), [Op.listPVCs, Op.listPods])
      | .ok pods =>
        (.ok (pods.any (fun pod =>
          pod.phase == PodPhase.Running &&
          pod.volumes.any (fun v => v.claimName == some target.name))),
         [Op.listPVCs, Op.listPods])

/-- Inner loops of `findExistingPodForVolume` for one matching pod volume:
first (mountPath, containerName) over the pod's containers whose mount
name equals the pod-volume name. -/
def findMountForVolume (pod : Pod) (volName : String) : Option (String × String) :=
  pod.containers.findSome? (fun c =>
    (c.volumeMounts.find? (fun m => m.name == volName)).map (fun m => (m.mountPath, c.name)))

/-- Middle loop of `findExistingPodForVolume` for one running pod: first
handle over the pod's volumes that reference the target claim and have a
resolvable mount; a claim-matching volume without a mount falls through to
the next volume, as in the source. -/
def findInPod (pod : Pod) (targetPVC : String) : Option Handle :=
  pod.volumes.findSome? (fun v =>
    if v.claimName == some targetPVC then
      (findMountForVolume pod v.name).map (fun mc => (pod.name, mc.1, mc.2))
    else none)

/-- Embeds `findExistingPodForVolume`: list claims, find the claim bound to
the PV, then the first running pod with a container mounting that claim. -/
def findExistingPodForVolume (env : Env) (pvName : String) :
    Except String Handle × List Op :=
  match env.pvcList with
  | .error e => (.error ("failed to list PVCs: " ++ e), [Op.listPVCs])
  | .ok pvcs =>
    match pvcs.find? (fun pvc => pvc.volumeName == pvName && pvc.phase == ClaimPhase.Bound) with
    | none => (.error ("no PVC found for PV " ++ pvName), [Op.listPVCs])
    | some target =>
      match env.podList with
      | .error e => (.error ("failed to list pods: " ++ e), [Op.listPVCs, Op.listPods])
      | .ok pods =>
        match pods.findSome? (fun pod =>
            if pod.phase == PodPhase.Running then findInPod pod target.name else none) with
        | some h => (.ok h, [Op.listPVCs, Op.listPods])
        | none => (.error ("no running pod found using PVC " ++ target.name),
                   [Op.listPVCs, Op.listPods])

/-- Embeds `createTemporaryPV`: get-or-create of the temporary PV
`lhc-temp-pv-<volume>`.  Note the source's `if err == nil return` pattern:
ANY get error (not just NotFound) falls through to creation. -/
def createTemporaryPV (env : Env) (volumeName : String) :
    Except String String × List Op :=
  let pvName := "lhc-temp-pv-" ++ volumeName
  match env.getPV pvName with
  | .ok _ => (.ok pvName, [Op.getPV pvName])
  | .error _ =>
    match getLonghornVolume env volumeName with
    | .error e => (.error ("failed to get Longhorn volume info: " ++ e),
                   [Op.getPV pvName, Op.listVolumes])
    | .ok _ =>
      match env.createPV pvName with
      | .error e => (.error ("failed to create temporary PV: " ++ e),
                     [Op.getPV pvName, Op.listVolumes, Op.createPV pvName])
      | .ok _ => (.ok pvName, [Op.getPV pvName, Op.listVolumes, Op.createPV pvName])

/-- Embeds `createTemporaryRWXPV`: same get-or-create pattern on the PV name
derived from the temporary RWX volume name; no Longhorn lookup inside. -/
def createTemporaryRWXPV (env : Env) (volumeName : String) :
    Except String String × List Op :=
  let pvName := "lhc-temp-pv-" ++ volumeName
  match env.getPV pvName with
  | .ok _ => (.ok pvName, [Op.getPV pvName])
  | .error _ =>
    match env.createPV pvName with
    | .error e => (.error ("failed to create temporary RWX PV: " ++ e),
                   [Op.getPV pvName, Op.createPV pvName])
    | .ok _ => (.ok pvName, [Op.getPV pvName, Op.createPV pvName])

/-- Result of a bounded poll loop: the target state was reached, the
iteration bound was exhausted, or a status read failed. -/
inductive PollResult
  | reached
  | exhausted
  | failed (e : String)
deriving DecidableEq, Repr

/-- Generic bounded poll: `poll i` is the i-th status read, `target` the
break condition, the second argument the remaining fuel.  Returns the
outcome and the number of polls performed.  A read error stops the loop at
once. -/
def pollAux {α : Type} (poll : Nat → Except String α) (target : α → Bool) :
    Nat → Nat → PollResult × Nat
  | _, 0 => (PollResult.exhausted, 0)
  | i, n + 1 =>
    match poll i with
    | .error e => (PollResult.failed e, 1)
    | .ok v =>
      if target v then (PollResult.reached, 1)
      else
        let r := pollAux poll target (i + 1) n
        (r.1, r.2 + 1)

/-- Embeds the claim-binding wait loop (`for i := 0; i < 60; i++`): bound 60,
a read error is surfaced, reaching `Bound` breaks, and exhausting the
bound also proceeds (the provision continues optimistically). -/
def waitClaimBound (env : Env) : Except String Unit × Nat :=
  match pollAux env.pollPVC (fun ph => ph == ClaimPhase.Bound) 0 60 with
  | (PollResult.failed e, n) => (.error ("failed to get PVC status: " ++ e), n)
  | (_, n) => (.ok (), n)

/-- Embeds the pod-readiness wait loop (`for i := 0; i < 120; i++`): bound
120, a read error is surfaced, reaching `Running` succeeds, exhausting the
bound is an error naming the pod. -/
def waitPodRunning (env : Env) (podName : String) : Except String Unit × Nat :=
  match pollAux env.pollPod (fun ph => ph == PodPhase.Running) 0 120 with
  | (PollResult.failed e, n) => (.error ("failed to get pod status: " ++ e), n)
  | (PollResult.reached, n) => (.ok (), n)
  | (PollResult.exhausted, n) =>
    (.error ("temporary pod " ++ podName ++ " did not become ready in time"), n)

/-- Embeds the short-circuit condition `err == nil && pod.Status.Phase ==
PodRunning` on the existing-pod check. -/
def isRunningCheck : Except ApiErr PodPhase → Bool
  | .ok ph => ph == PodPhase.Running
  | .error _ => false

/-- Shared tail of `createTemporaryPodForLonghorn` and
`createTemporaryPodForRWXVolume` (the two Go functions are line-for-line
identical from the PVC check on, modulo the size argument, which the model
does not inspect): get-or-create of the temporary PVC with bounded
bind-wait, then reuse of a running temporary pod or creation with bounded
readiness-wait. -/
def tempPodGetOrCreate (env : Env) (volumeName : String) :
    Except String Handle × List Op :=
  let pvcName := "lhc-temp-pvc-" ++ volumeName
  let mountPath := "/mnt/volume"
  let containerName := "temp-container"
  let podName := "lhc-temp-pod-" ++ volumeName
  let pvcStep : Except String Unit × List Op :=
    match env.getPVC pvcName with
    | .ok _ => (.ok (), [Op.getPVC pvcName])
    | .error _ =>
      match env.createPVC pvcName with
      | .error e => (.error ("failed to create temporary PVC: " ++ e),
                     [Op.getPVC pvcName, Op.createPVC pvcName])
      | .ok _ =>
        match (waitClaimBound env).1 with
        | .error e => (.error e, [Op.getPVC pvcName, Op.createPVC pvcName])
        | .ok _ => (.ok (), [Op.getPVC pvcName, Op.createPVC pvcName])
  match pvcStep with
  | (.error e, t) => (.error e, t)
  | (.ok _, t) =>
    if isRunningCheck (env.getPod podName) then
      (.ok (podName, mountPath, containerName), t ++ [Op.getPod podName])
    else
      match env.createPod podName with
      | .error e => (.error ("failed to create temporary pod: " ++ e),
                     t ++ [Op.getPod podName, Op.createPod podName])
      | .ok _ =>
        match waitPodRunning env podName with
        | (.ok _, _) => (.ok (podName, mountPath, containerName),
                         t ++ [Op.getPod podName, Op.createPod podName])
        | (.error e, _) => (.error e, t ++ [Op.getPod podName, Op.createPod podName])

/-- Embeds `createTemporaryPodForLonghorn`: Longhorn volume lookup (for
sizing), unconditional temporary-PV get-or-create, then the shared PVC/pod
get-or-create tail. -/
def createTemporaryPodForLonghorn (env : Env) (volumeName : String) :
    Except String Handle × List Op :=
  match getLonghornVolume env volumeName with
  | .error e => (.error ("failed to get Longhorn volume info: " ++ e), [Op.listVolumes])
  | .ok _ =>
    match createTemporaryPV env volumeName with
    | (.error e, t) => (.error ("failed to create temporary PV: " ++ e), Op.listVolumes :: t)
    | (.ok _, t) =>
      let s := tempPodGetOrCreate env volumeName
      (s.1, Op.listVolumes :: t ++ s.2)

/-- Embeds `createTemporaryPodForRWXVolume`: the shared PVC/pod
get-or-create tail on the RWX temporary volume name (this Go function has
no Longhorn lookup and no PV creation of its own). -/
def createTemporaryPodForRWXVolume (env : Env) (volumeName : String) :
    Except String Handle × List Op :=
  tempPodGetOrCreate env volumeName

/-- Embeds `createSnapshotBasedAccess`: the indirect/snapshot fallback.
Announces itself (the marker), derives `lhc-temp-rwx-<volume>`, looks up
the original volume for sizing, creates the RWX PV and then the RWX pod. -/
def createSnapshotBasedAccess (env : Env) (volumeName : String) :
    Except String Handle × List Op :=
  let tempVolumeName := "lhc-temp-rwx-" ++ volumeName
  match getLonghornVolume env volumeName with
  | .error e => (.error ("failed to get original volume info: " ++ e),
                 [Op.snapshotAccessMarker volumeName, Op.listVolumes])
  | .ok _ =>
    match createTemporaryRWXPV env tempVolumeName with
    | (.error e, t) => (.error ("failed to create temporary RWX PV: " ++ e),
                        Op.snapshotAccessMarker volumeName :: Op.listVolumes :: t)
    | (.ok _, t) =>
      let s := createTemporaryPodForRWXVolume env tempVolumeName
      (s.1, Op.snapshotAccessMarker volumeName :: Op.listVolumes :: t ++ s.2)

/-- Embeds `getVolumeInfo`, the access resolver: volume lookup; if a PV is
recorded, in-use check; in use → reuse an existing mounting pod or fall
back to snapshot-based access; not in use → temporary-PV creation when no
PV is recorded, then the temporary pod provisioner. -/
def getVolumeInfo (env : Env) (volumeName : String) :
    Except String Handle × List Op :=
  match getLonghornVolume env volumeName with
  | .error e => (.error ("Longhorn volume " ++ volumeName ++ " not found: " ++ e),
                 [Op.listVolumes])
  | .ok volume =>
    if volume.pvName == "" then
      match createTemporaryPV env volumeName with
      | (.error e, t) => (.error ("failed to create temporary PV: " ++ e),
                          Op.listVolumes :: t)
      | (.ok _, t) =>
        let s := createTemporaryPodForLonghorn env volumeName
        (s.1, Op.listVolumes :: t ++ s.2)
    else
      match isVolumeInUse env volume.pvName with
      | (.error e, t) => (.error ("failed to check if volume is in use: " ++ e),
                          Op.listVolumes :: t)
      | (.ok true, t) =>
        match findExistingPodForVolume env volume.pvName with
        | (.ok h, t2) => (.ok h, Op.listVolumes :: t ++ t2)
        | (.error _, t2) =>
          let s := createSnapshotBasedAccess env volumeName
          (s.1, Op.listVolumes :: t ++ t2 ++ s.2)
      | (.ok false, t) =>
        let s := createTemporaryPodForLonghorn env volumeName
        (s.1, Op.listVolumes :: t ++ s.2)

/-- Embeds the result-collection loop of `streamCopyBetweenPods`.  The two
goroutines (producer: archive the source tree to the pipe; consumer:
extract from the pipe at the destination) each send their terminal error
(or nil) into a channel of capacity 2; `r1` and `r2` are the first and
second results in channel-arrival order.  The Go loop
`for i := 0; i < 2; i++ { if err := <-errChan; err != nil { return ... } }`
returns on the first error it receives.  The second component is the
number of channel receives performed before returning. -/
def streamCopyBetweenPods (r1 r2 : Option String) : Except String Unit × Nat :=
  match r1 with
  | some e => (.error ("stream copy failed: " ++ e), 1)
  | none =>
    match r2 with
    | some e => (.error ("stream copy failed: " ++ e), 2)
    | none => (.ok (), 2)

/-- The destination-clearing command built by `CopyVolume`:
`sh -c "rm -rf <d>/* <d>/.[^.] <d>/..?*"`. -/
def clearCommand (d : String) : List String :=
  ["sh", "-c", "rm -rf " ++ d ++ "/* " ++ d ++ "/.[^.] " ++ d ++ "/..?*"]

/-- Shell semantics of the glob `*` in the clearing command: matches every
directory entry not starting with a dot. -/
def matchesStar (name : String) : Bool :=
  match name.toList with
  | [] => false
  | c :: _ => c ≠ '.'

/-- Shell semantics of the glob `.[^.]` in the clearing command: exactly two
characters, a dot followed by one non-dot character. -/
def matchesDotSingle (name : String) : Bool :=
  match name.toList with
  | ['.', c] => c ≠ '.'
  | _ => false

/-- Shell semantics of the glob `..?*` in the clearing command: two dots,
then exactly one further character (`?`), then anything (`*`). -/
def matchesDotDotQStar (name : String) : Bool :=
  match name.toList with
  | '.' :: '.' :: _ :: _ => true
  | _ => false

/-- Whether a directory entry at the destination mount root is removed by
the clearing command: union of its three glob patterns. -/
def clearRemoves (name : String) : Bool :=
  matchesStar name || matchesDotSingle name || matchesDotDotQStar name

/-- Embeds `CopyVolume`: resolve source and destination, clear the
destination mount root (aborting the copy if that fails), list the source
(warning only), run the streaming transfer, list the destination (warning
only).  `r1 r2` are the stream result channel's arrivals, threaded to
`streamCopyBetweenPods`. -/
def CopyVolume (env : Env) (r1 r2 : Option String) (sourceVolume destVolume : String) :
    Except String Unit × List Op :=
  match getVolumeInfo env sourceVolume with
  | (.error e, t1) => (.error ("source volume error: " ++ e), t1)
  | (.ok (srcPod, srcMount, _srcContainer), t1) =>
    match getVolumeInfo env destVolume with
    | (.error e, t2) => (.error ("destination volume error: " ++ e), t1 ++ t2)
    | (.ok (dstPod, dstMount, dstContainer), t2) =>
      let clearOp := Op.execCmd dstPod (clearCommand dstMount)
      match env.exec dstPod dstContainer (clearCommand dstMount) with
      | .error e => (.error ("failed to clear destination: " ++ e), t1 ++ t2 ++ [clearOp])
      | .ok _ =>
        let lsSrc := Op.execCmd srcPod ["ls", "-la", srcMount]
        match streamCopyBetweenPods r1 r2 with
        | (.error e, _) =>
          (.error ("failed to copy data: " ++ e), t1 ++ t2 ++ [clearOp, lsSrc, Op.stream])
        | (.ok _, _) =>
          (.ok (), t1 ++ t2 ++ [clearOp, lsSrc, Op.stream,
                                Op.execCmd dstPod ["ls", "-la", dstMount]])

/-- Environment of one garbage-collection sweep (`CleanupTemporaryResources`,
exported): the three label-selected list calls, the operator's
confirmation response, and the per-object delete outcomes (`none` =
deleted, `some e` = delete error). -/
structure SweepEnv where
  pods : Except String (List Pod)
  pvcs : Except String (List PVC)
  pvs : Except String (List String)
  response : String
  deletePod : String → Option String
  deletePVC : String → Option String
  deletePV : String → Option String

/-- Delete phase of the sweep: pods first, then claims, then PVs; every
delete is issued regardless of earlier failures, each failure adding a
printed warning. -/
def sweepDeletes (env : SweepEnv) (pods : List Pod) (pvcs : List PVC)
    (pvs : List String) : List Op :=
  (pods.map (fun pod =>
      Op.deletePod pod.name ::
        (match env.deletePod pod.name with
         | some e => [Op.warn ("Warning: failed to delete pod " ++ pod.name ++ ": " ++ e)]
         | none => []))).flatten
  ++ (pvcs.map (fun pvc =>
      Op.deletePVC pvc.name ::
        (match env.deletePVC pvc.name with
         | some e => [Op.warn ("Warning: failed to delete PVC " ++ pvc.name ++ ": " ++ e)]
         | none => []))).flatten
  ++ (pvs.map (fun pv =>
      Op.deletePV pv ::
        (match env.deletePV pv with
         | some e => [Op.warn ("Warning: failed to delete PV " ++ pv ++ ": " ++ e)]
         | none => []))).flatten

/-- Embeds `CleanupTemporaryResources` (the `cleanup` command's sweep): list
the tagged pods, claims and PVs (any list error is surfaced); with zero
objects, report and return success without prompting; otherwise prompt,
and unless the response is exactly "y" or "Y", delete nothing and return
success; on confirmation run the best-effort delete phase and return
success. -/
def CleanupTemporaryResources (env : SweepEnv) : Except String Unit × List Op :=
  match env.pods with
  | .error e => (.error ("failed to list temporary pods: " ++ e), [Op.listPods])
  | .ok pods =>
    match env.pvcs with
    | .error e => (.error ("failed to list temporary PVCs: " ++ e), [Op.listPods, Op.listPVCs])
    | .ok pvcs =>
      match env.pvs with
      | .error e => (.error ("failed to list temporary PVs: " ++ e),
                     [Op.listPods, Op.listPVCs, Op.listPVs])
      | .ok pvs =>
        if pods.length + pvcs.length + pvs.length == 0 then
          (.ok (), [Op.listPods, Op.listPVCs, Op.listPVs])
        else if env.response != "y" && env.response != "Y" then
          (.ok (), [Op.listPods, Op.listPVCs, Op.listPVs, Op.prompt])
        else
          (.ok (), [Op.listPods, Op.listPVCs, Op.listPVs, Op.prompt]
                   ++ sweepDeletes env pods pvcs pvs)

/-- Delete outcomes for the per-volume cleanup after copy
(`cleanupTemporaryResources`, unexported). -/
structure DeleteEnv where
  deletePod : String → Option String
  deletePVC : String → Option String
  deletePV : String → Option String

/-- Embeds the unexported `cleanupTemporaryResources`: delete the canonical
temporary pod, claim and PV of one volume, each failure downgraded to a
printed warning; returns success unconditionally. -/
def cleanupTemporaryResources (env : DeleteEnv) (volumeName : String) :
    Except String Unit × List Op :=
  let pvcName := "lhc-temp-pvc-" ++ volumeName
  let podName := "lhc-temp-pod-" ++ volumeName
  let pvName := "lhc-temp-pv-" ++ volumeName
  let t1 := Op.deletePod podName ::
    (match env.deletePod podName with
     | some e => [Op.warn ("Warning: failed to delete temporary pod " ++ podName ++ ": " ++ e)]
     | none => [])
  let t2 := Op.deletePVC pvcName ::
    (match env.deletePVC pvcName with
     | some e => [Op.warn ("Warning: failed to delete temporary PVC " ++ pvcName ++ ": " ++ e)]
     | none => [])
  let t3 := Op.deletePV pvName ::
    (match env.deletePV pvName with
     | some e => [Op.warn ("Warning: failed to delete temporary PV " ++ pvName ++ ": " ++ e)]
     | none => [])
  (.ok (), t1 ++ t2 ++ t3)

/-! ## Concrete environments used by counterexamples and witnesses -/

/-- A neutral environment: empty cluster, every get answers NotFound, every
create succeeds, every poll immediately reports the target state, every
exec succeeds. -/
def env0 : Env where
  volumes := .ok []
  pvcList := .ok []
  podList := .ok []
  getPV := fun _ => .error ApiErr.notFound
  createPV := fun _ => .ok ()
  getPVC := fun _ => .error ApiErr.notFound
  createPVC := fun _ => .ok ()
  pollPVC := fun _ => .ok ClaimPhase.Bound
  getPod := fun _ => .error ApiErr.notFound
  createPod := fun _ => .ok ()
  pollPod := fun _ => .ok PodPhase.Running
  exec := fun _ _ _ => .ok ()

/-- Environment whose PV lookup fails with a non-NotFound error while the
volume itself exists: exercises the get-or-create error handling. -/
def envC2 : Env :=
  { env0 with
    volumes := .ok [⟨"vol-a", "1Gi", "detached", ""⟩],
    getPV := fun _ => .error (ApiErr.other "transient list failure") }

/-! ## C1 — stream copy result draining -/

/-- Claim C1 counterexample: in a run whose first received result is an
error, the engine performs only one channel receive (not two) before
returning the stream-copy failure, so it does return leaving the second
result unread. -/
theorem C1_counterexample :
    (some "tar failed" ≠ (none : Option String)) ∧
    (streamCopyBetweenPods (some "tar failed") none).1 =
      .error ("stream copy failed: " ++ "tar failed") ∧
    (streamCopyBetweenPods (some "tar failed") none).2 = 1 ∧
    (streamCopyBetweenPods (some "tar failed") none).2 ≠ 2 :=
  ⟨by simp, rfl, rfl, by simp [streamCopyBetweenPods]⟩

/-- Claim C1 amended: the engine returns a stream-copy failure as soon as it
receives an error result.  If the first received result is an error it
returns after a single receive, leaving the second result unread (it stays
buffered in the two-slot channel); both results are received exactly when
the first one is nil, and the call then fails iff the second is an error. -/
theorem C1_amended_first_error_returns (r1 r2 : Option String) :
    (∀ e, r1 = some e →
      streamCopyBetweenPods r1 r2 = (.error ("stream copy failed: " ++ e), 1)) ∧
    (r1 = none → (streamCopyBetweenPods r1 r2).2 = 2) ∧
    (∀ e, r1 = none → r2 = some e →
      (streamCopyBetweenPods r1 r2).1 = .error ("stream copy failed: " ++ e)) ∧
    (r1 = none → r2 = none → (streamCopyBetweenPods r1 r2).1 = .ok ()) := by
  refine ⟨?_, ?_, ?_, ?_⟩
  · rintro e rfl; rfl
  · rintro rfl; cases r2 <;> rfl
  · rintro e rfl rfl; rfl
  · rintro rfl rfl; rfl

/-- Witness for the amended C1 theorem at concrete channel arrivals. -/
theorem C1_amended_first_error_returns_witness :
    streamCopyBetweenPods (some "boom") none = (.error ("stream copy failed: " ++ "boom"), 1) ∧
    (streamCopyBetweenPods none (some "boom")).2 = 2 ∧
    (streamCopyBetweenPods none (some "boom")).1 = .error ("stream copy failed: " ++ "boom") ∧
    (streamCopyBetweenPods none none).1 = .ok () :=
  ⟨(C1_amended_first_error_returns (some "boom") none).1 "boom" rfl,
   (C1_amended_first_error_returns none (some "boom")).2.1 rfl,
   (C1_amended_first_error_returns none (some "boom")).2.2.1 "boom" rfl rfl,
   (C1_amended_first_error_returns none none).2.2.2 rfl rfl⟩

/-! ## C2 — get-or-create triggered by any lookup error, not only NotFound -/

/-- Claim C2 counterexample: a non-NotFound lookup error on the temporary PV
is not surfaced to the caller; the provisioner proceeds to create the
object exactly as if it were absent. -/
theorem C2_counterexample :
    envC2.getPV "lhc-temp-pv-vol-a" = .error (ApiErr.other "transient list failure") ∧
    (createTemporaryPV envC2 "vol-a").1 = .ok "lhc-temp-pv-vol-a" ∧
    Op.createPV "lhc-temp-pv-vol-a" ∈ (createTemporaryPV envC2 "vol-a").2 := by
  refine ⟨rfl, rfl, ?_⟩
  show Op.createPV "lhc-temp-pv-vol-a" ∈
    [Op.getPV "lhc-temp-pv-vol-a", Op.listVolumes, Op.createPV "lhc-temp-pv-vol-a"]
  simp

/-- Claim C2 amended: every get-or-create step of the Provisioner —
temporary PV, temporary PVC, temporary pod — treats ANY lookup error, not
only NotFound, as "the object does not exist yet": the create call is
issued, the whole computation is identical to what a NotFound lookup
yields (so the lookup error is never surfaced to the caller), and only
creation failures are returned.  The pod conjunct assumes the PVC step
succeeded (otherwise the source never reaches the pod check). -/
theorem C2_amended_any_error_creates (env : Env) (v : String) :
    (∀ er vol, env.getPV ("lhc-temp-pv-" ++ v) = .error er →
      getLonghornVolume env v = .ok vol →
      Op.createPV ("lhc-temp-pv-" ++ v) ∈ (createTemporaryPV env v).2 ∧
      (createTemporaryPV env v).1 =
        (match env.createPV ("lhc-temp-pv-" ++ v) with
         | .ok _ => .ok ("lhc-temp-pv-" ++ v)
         | .error e => .error ("failed to create temporary PV: " ++ e)) ∧
      createTemporaryPV env v =
        createTemporaryPV { env with getPV := fun _ => .error ApiErr.notFound } v) ∧
    (∀ er, env.getPVC ("lhc-temp-pvc-" ++ v) = .error er →
      Op.createPVC ("lhc-temp-pvc-" ++ v) ∈ (tempPodGetOrCreate env v).2 ∧
      (∀ e, env.createPVC ("lhc-temp-pvc-" ++ v) = .error e →
        (tempPodGetOrCreate env v).1 = .error ("failed to create temporary PVC: " ++ e)) ∧
      tempPodGetOrCreate env v =
        tempPodGetOrCreate { env with getPVC := fun _ => .error ApiErr.notFound } v) ∧
    (∀ er, (env.getPVC ("lhc-temp-pvc-" ++ v) = .ok () ∨
        (env.createPVC ("lhc-temp-pvc-" ++ v) = .ok () ∧ (waitClaimBound env).1 = .ok ())) →
      env.getPod ("lhc-temp-pod-" ++ v) = .error er →
      Op.createPod ("lhc-temp-pod-" ++ v) ∈ (tempPodGetOrCreate env v).2 ∧
      (∀ e, env.createPod ("lhc-temp-pod-" ++ v) = .error e →
        (tempPodGetOrCreate env v).1 = .error ("failed to create temporary pod: " ++ e)) ∧
      tempPodGetOrCreate env v =
        tempPodGetOrCreate { env with getPod := fun _ => .error ApiErr.notFound } v) := by
  refine ⟨?_, ?_, ?_⟩
  · intro er vol hget hvol
    have hvol2 : getLonghornVolume { env with getPV := fun _ => Except.error ApiErr.notFound } v
        = .ok vol := hvol
    refine ⟨?_, ?_, ?_⟩
    · simp only [createTemporaryPV, hget, hvol]
      cases env.createPV ("lhc-temp-pv-" ++ v) <;> simp
    · simp only [createTemporaryPV, hget, hvol]
      cases env.createPV ("lhc-temp-pv-" ++ v) <;> simp
    · simp only [createTemporaryPV, hget, hvol, hvol2]
  · intro er hpvc
    have hwcb : waitClaimBound { env with getPVC := fun _ => Except.error ApiErr.notFound }
        = waitClaimBound env := rfl
    have hwpr : ∀ p, waitPodRunning { env with getPVC := fun _ => Except.error ApiErr.notFound } p
        = waitPodRunning env p := fun _ => rfl
    refine ⟨?_, ?_, ?_⟩
    · simp only [tempPodGetOrCreate, hpvc]
      cases hc : env.createPVC ("lhc-temp-pvc-" ++ v) <;> simp
      cases hw : (waitClaimBound env).1 <;> simp
      split
      · simp
      · cases env.createPod ("lhc-temp-pod-" ++ v) <;> simp
        rcases waitPodRunning env ("lhc-temp-pod-" ++ v) with ⟨r, n⟩
        cases r <;> simp
    · intro e hce
      simp only [tempPodGetOrCreate, hpvc, hce]
    · simp only [tempPodGetOrCreate, hpvc, hwcb, hwpr]
  · intro er hreach hpod
    have hwpr2 : ∀ p, waitPodRunning { env with getPod := fun _ => Except.error ApiErr.notFound } p
        = waitPodRunning env p := fun _ => rfl
    have hwcb2 : waitClaimBound { env with getPod := fun _ => Except.error ApiErr.notFound }
        = waitClaimBound env := rfl
    have hrc : isRunningCheck (Except.error er) = false := rfl
    have hrc2 : isRunningCheck (Except.error ApiErr.notFound) = false := rfl
    rcases hg2 : env.getPVC ("lhc-temp-pvc-" ++ v) with er2 | u
    · rcases hreach with hg | ⟨hc, hw⟩
      · rw [hg2] at hg
        exact absurd hg (by simp)
      · refine ⟨?_, ?_, ?_⟩
        · simp only [tempPodGetOrCreate, hg2, hc, hw, hpod, hrc, Bool.false_eq_true, if_false]
          cases env.createPod ("lhc-temp-pod-" ++ v) <;> simp
          rcases waitPodRunning env ("lhc-temp-pod-" ++ v) with ⟨r, n⟩
          cases r <;> simp
        · intro e hce
          simp only [tempPodGetOrCreate, hg2, hc, hw, hpod, hce, hrc,
            Bool.false_eq_true, if_false]
        · simp only [tempPodGetOrCreate, hg2, hc, hw, hpod, hrc, hrc2,
            Bool.false_eq_true, if_false, hwpr2, hwcb2]
    · refine ⟨?_, ?_, ?_⟩
      · simp only [tempPodGetOrCreate, hg2, hpod, hrc, Bool.false_eq_true, if_false]
        cases env.createPod ("lhc-temp-pod-" ++ v) <;> simp
        rcases waitPodRunning env ("lhc-temp-pod-" ++ v) with ⟨r, n⟩
        cases r <;> simp
      · intro e hce
        simp only [tempPodGetOrCreate, hg2, hpod, hce, hrc, Bool.false_eq_true, if_false]
      · simp only [tempPodGetOrCreate, hg2, hpod, hrc, hrc2, Bool.false_eq_true, if_false,
          hwpr2, hwcb2]

/-- Environment with an existing temporary PVC, a non-NotFound pod lookup
error and a failing pod create: exercises the temporary-pod get-or-create
step. -/
def envC2pod : Env :=
  { env0 with
    getPVC := fun _ => .ok (),
    getPod := fun _ => .error (ApiErr.other "etcd leader changed"),
    createPod := fun _ => .error "quota exceeded" }

/-- Witness for the amended C2 theorem, exercising all three get-or-create
steps at concrete environments with non-NotFound lookup errors. -/
theorem C2_amended_any_error_creates_witness :
    Op.createPV ("lhc-temp-pv-" ++ "vol-a") ∈ (createTemporaryPV envC2 "vol-a").2 ∧
    Op.createPVC ("lhc-temp-pvc-" ++ "vol-a") ∈ (tempPodGetOrCreate envC2 "vol-a").2 ∧
    Op.createPod ("lhc-temp-pod-" ++ "vol-a") ∈ (tempPodGetOrCreate envC2pod "vol-a").2 ∧
    (tempPodGetOrCreate envC2pod "vol-a").1 =
      .error ("failed to create temporary pod: " ++ "quota exceeded") := by
  have h1 := (C2_amended_any_error_creates envC2 "vol-a").1
    (ApiErr.other "transient list failure") ⟨"vol-a", "1Gi", "detached", ""⟩ rfl rfl
  have h2 := (C2_amended_any_error_creates envC2 "vol-a").2.1 ApiErr.notFound rfl
  have h3 := (C2_amended_any_error_creates envC2pod "vol-a").2.2
    (ApiErr.other "etcd leader changed") (Or.inl rfl) rfl
  exact ⟨h1.1, h2.1, h3.1, h3.2.1 "quota exceeded" rfl⟩

/-! ## C7 — bounded poll loops -/

theorem pollAux_count_le {α : Type} (poll : Nat → Except String α) (target : α → Bool) :
    ∀ fuel i, (pollAux poll target i fuel).2 ≤ fuel := by
  intro fuel
  induction fuel with
  | zero => intro i; simp [pollAux]
  | succ n ih =>
    intro i
    simp only [pollAux]
    cases poll i with
    | error e => simp
    | ok v =>
      by_cases h : target v
      · simp [h]
      · simp only [h, if_false]
        exact Nat.succ_le_succ (ih (i + 1))

theorem pollAux_exhausted {α : Type} (poll : Nat → Except String α) (target : α → Bool) :
    ∀ fuel i, (∀ k, k < fuel → ∃ v, poll (i + k) = .ok v ∧ target v = false) →
    pollAux poll target i fuel = (PollResult.exhausted, fuel) := by
  intro fuel
  induction fuel with
  | zero => intro i _; simp [pollAux]
  | succ n ih =>
    intro i h
    obtain ⟨v, hv, ht⟩ := h 0 (Nat.succ_pos n)
    rw [Nat.add_zero] at hv
    simp only [pollAux, hv, ht, if_false]
    rw [ih (i + 1) (fun k hk => by
      obtain ⟨v', hv', ht'⟩ := h (k + 1) (Nat.succ_lt_succ hk)
      refine ⟨v', ?_, ht'⟩
      have he : i + 1 + k = i + (k + 1) := by omega
      rw [he]
      exact hv')]
    simp

theorem pollAux_first_error {α : Type} (poll : Nat → Except String α) (target : α → Bool)
    (e : String) :
    ∀ j fuel i, j < fuel → poll (i + j) = .error e →
    (∀ k, k < j → ∃ v, poll (i + k) = .ok v ∧ target v = false) →
    pollAux poll target i fuel = (PollResult.failed e, j + 1) := by
  intro j
  induction j with
  | zero =>
    intro fuel i hj he _
    cases fuel with
    | zero => omega
    | succ n =>
      rw [Nat.add_zero] at he
      simp [pollAux, he]
  | succ m ih =>
    intro fuel i hj he hpre
    cases fuel with
    | zero => omega
    | succ n =>
      obtain ⟨v, hv, ht⟩ := hpre 0 (Nat.succ_pos m)
      rw [Nat.add_zero] at hv
      simp only [pollAux, hv, ht, if_false]
      rw [ih n (i + 1) (by omega)
        (by have hx : i + 1 + m = i + (m + 1) := by omega
            rw [hx]; exact he)
        (fun k hk => by
          obtain ⟨v', hv', ht'⟩ := hpre (k + 1) (by omega)
          refine ⟨v', ?_, ht'⟩
          have hx : i + 1 + k = i + (k + 1) := by omega
          rw [hx]; exact hv')]
      simp

/-- Claim C7: the provisioner's wait loops are bounded.  The claim-binding
wait performs at most 60 polls and, when the bound is exhausted without
the claim becoming bound, still returns success (the provision proceeds
optimistically).  The pod-readiness wait performs at most 120 polls and,
when exhausted, returns the provision-failure error naming the pod that
did not become ready.  In either loop a status-read error at any poll is
surfaced immediately: the loop stops at that poll instead of retrying. -/
theorem C7_bounded_polls (env : Env) (podName : String) :
    (waitClaimBound env).2 ≤ 60 ∧
    (waitPodRunning env podName).2 ≤ 120 ∧
    ((∀ i, i < 60 → ∃ ph, env.pollPVC i = .ok ph ∧ ph ≠ ClaimPhase.Bound) →
      waitClaimBound env = (.ok (), 60)) ∧
    ((∀ i, i < 120 → ∃ ph, env.pollPod i = .ok ph ∧ ph ≠ PodPhase.Running) →
      waitPodRunning env podName =
        (.error ("temporary pod " ++ podName ++ " did not become ready in time"), 120)) ∧
    (∀ j e, j < 60 → env.pollPVC j = .error e →
      (∀ k, k < j → ∃ ph, env.pollPVC k = .ok ph ∧ ph ≠ ClaimPhase.Bound) →
      waitClaimBound env = (.error ("failed to get PVC status: " ++ e), j + 1)) ∧
    (∀ j e, j < 120 → env.pollPod j = .error e →
      (∀ k, k < j → ∃ ph, env.pollPod k = .ok ph ∧ ph ≠ PodPhase.Running) →
      waitPodRunning env podName = (.error ("failed to get pod status: " ++ e), j + 1)) := by
  refine ⟨?_, ?_, ?_, ?_, ?_, ?_⟩
  · have h := pollAux_count_le env.pollPVC (fun ph => ph == ClaimPhase.Bound) 60 0
    unfold waitClaimBound
    rcases hp : pollAux env.pollPVC (fun ph => ph == ClaimPhase.Bound) 0 60 with ⟨r, n⟩
    rw [hp] at h
    cases r <;> simpa using h
  · have h := pollAux_count_le env.pollPod (fun ph => ph == PodPhase.Running) 120 0
    unfold waitPodRunning
    rcases hp : pollAux env.pollPod (fun ph => ph == PodPhase.Running) 0 120 with ⟨r, n⟩
    rw [hp] at h
    cases r <;> simpa using h
  · intro h
    unfold waitClaimBound
    rw [pollAux_exhausted env.pollPVC (fun ph => ph == ClaimPhase.Bound) 60 0
      (fun k hk => by
        obtain ⟨ph, hp, hne⟩ := h k hk
        refine ⟨ph, by simpa using hp, beq_eq_false_iff_ne.mpr hne⟩)]
  · intro h
    unfold waitPodRunning
    rw [pollAux_exhausted env.pollPod (fun ph => ph == PodPhase.Running) 120 0
      (fun k hk => by
        obtain ⟨ph, hp, hne⟩ := h k hk
        refine ⟨ph, by simpa using hp, beq_eq_false_iff_ne.mpr hne⟩)]
  · intro j e hj he hpre
    unfold waitClaimBound
    rw [pollAux_first_error env.pollPVC (fun ph => ph == ClaimPhase.Bound) e j 60 0 hj
      (by simpa using he)
      (fun k hk => by
        obtain ⟨ph, hp, hne⟩ := hpre k hk
        refine ⟨ph, by simpa using hp, beq_eq_false_iff_ne.mpr hne⟩)]
  · intro j e hj he hpre
    unfold waitPodRunning
    rw [pollAux_first_error env.pollPod (fun ph => ph == PodPhase.Running) e j 120 0 hj
      (by simpa using he)
      (fun k hk => by
        obtain ⟨ph, hp, hne⟩ := hpre k hk
        refine ⟨ph, by simpa using hp, beq_eq_false_iff_ne.mpr hne⟩)]

/-- Environment whose polls never report the target state: exercises both
exhaustion behaviors. -/
def envExh : Env :=
  { env0 with
    pollPVC := fun _ => .ok ClaimPhase.Pending,
    pollPod := fun _ => .ok PodPhase.Pending }

/-- Environment whose claim-status polls fail at the third read. -/
def envPollErr : Env :=
  { env0 with
    pollPVC := fun i => if i < 2 then .ok ClaimPhase.Pending else .error "boom" }

/-- Witness for C7 at concrete poll schedules: exhaustion on both loops and
an immediately-surfaced read error at poll index 2. -/
theorem C7_bounded_polls_witness :
    waitClaimBound envExh = (.ok (), 60) ∧
    waitPodRunning envExh "p" =
      (.error ("temporary pod " ++ "p" ++ " did not become ready in time"), 120) ∧
    waitClaimBound envPollErr = (.error ("failed to get PVC status: " ++ "boom"), 2 + 1) := by
  refine ⟨(C7_bounded_polls envExh "p").2.2.1 ?_,
          (C7_bounded_polls envExh "p").2.2.2.1 ?_,
          (C7_bounded_polls envPollErr "p").2.2.2.2.1 2 "boom" (by omega) ?_ ?_⟩
  · intro i _; exact ⟨ClaimPhase.Pending, rfl, by decide⟩
  · intro i _; exact ⟨PodPhase.Pending, rfl, by decide⟩
  · show envPollErr.pollPVC 2 = .error "boom"
    rfl
  · intro k hk
    refine ⟨ClaimPhase.Pending, ?_, by decide⟩
    show (if k < 2 then Except.ok ClaimPhase.Pending else Except.error "boom") =
      Except.ok ClaimPhase.Pending
    simp [hk]

/-! ## C8 — sweep confirmation gating -/

/-- Claim C8: the garbage-collection sweep deletes only after a confirmation
response of exactly "y" or "Y" — any other response deletes nothing and
returns success — and with zero tagged objects it returns success without
prompting and without deleting. -/
theorem C8_sweep_confirmation_gate (env : SweepEnv) (pods : List Pod) (pvcs : List PVC)
    (pvs : List String)
    (hp : env.pods = .ok pods) (hc : env.pvcs = .ok pvcs) (hv : env.pvs = .ok pvs) :
    (env.response ≠ "y" → env.response ≠ "Y" →
      (CleanupTemporaryResources env).1 = .ok () ∧
      (∀ n, Op.deletePod n ∉ (CleanupTemporaryResources env).2) ∧
      (∀ n, Op.deletePVC n ∉ (CleanupTemporaryResources env).2) ∧
      (∀ n, Op.deletePV n ∉ (CleanupTemporaryResources env).2)) ∧
    (pods = [] → pvcs = [] → pvs = [] →
      CleanupTemporaryResources env = (.ok (), [Op.listPods, Op.listPVCs, Op.listPVs])) := by
  constructor
  · intro hy hY
    have hresp : (env.response != "y" && env.response != "Y") = true := by
      simp [bne_iff_ne, hy, hY]
    simp only [CleanupTemporaryResources, hp, hc, hv]
    split
    · simp
    · simp [hresp]
  · intro h1 h2 h3
    subst h1; subst h2; subst h3
    simp [CleanupTemporaryResources, hp, hc, hv]

/-- Sweep environment with one object of each kind where every delete fails,
and a negative response field for the gate witness. -/
def envSweepNo : SweepEnv where
  pods := .ok [⟨"lhc-temp-pod-x", PodPhase.Running, [], []⟩]
  pvcs := .ok [⟨"lhc-temp-pvc-x", "lhc-temp-pv-x", ClaimPhase.Bound⟩]
  pvs := .ok ["lhc-temp-pv-x"]
  response := "n"
  deletePod := fun _ => some "forbidden"
  deletePVC := fun _ => some "forbidden"
  deletePV := fun _ => some "forbidden"

/-- Sweep environment with no tagged objects at all. -/
def envSweepEmpty : SweepEnv :=
  { envSweepNo with pods := .ok [], pvcs := .ok [], pvs := .ok [] }

/-- Witness for C8: a "n" response deletes nothing and succeeds; an empty
find-set succeeds with no prompt in the trace. -/
theorem C8_sweep_confirmation_gate_witness :
    (CleanupTemporaryResources envSweepNo).1 = .ok () ∧
    Op.deletePod "lhc-temp-pod-x" ∉ (CleanupTemporaryResources envSweepNo).2 ∧
    CleanupTemporaryResources envSweepEmpty = (.ok (), [Op.listPods, Op.listPVCs, Op.listPVs]) := by
  have h1 := (C8_sweep_confirmation_gate envSweepNo _ _ _ rfl rfl rfl).1
    (by decide) (by decide)
  have h2 := (C8_sweep_confirmation_gate envSweepEmpty _ _ _ rfl rfl rfl).2 rfl rfl rfl
  exact ⟨h1.1, h1.2.1 "lhc-temp-pod-x", h2⟩

/-! ## C9 — cleanup failures never fail the overall operation -/

theorem mem_sweepDeletes_pod (env : SweepEnv) (pods : List Pod) (pvcs : List PVC)
    (pvs : List String) (pod : Pod) (h : pod ∈ pods) :
    Op.deletePod pod.name ∈ sweepDeletes env pods pvcs pvs := by
  unfold sweepDeletes
  refine List.mem_append_left _ (List.mem_append_left _ ?_)
  simp only [List.mem_flatten, List.mem_map]
  exact ⟨_, ⟨pod, h, rfl⟩, List.mem_cons_self _ _⟩

theorem mem_sweepDeletes_pvc (env : SweepEnv) (pods : List Pod) (pvcs : List PVC)
    (pvs : List String) (pvc : PVC) (h : pvc ∈ pvcs) :
    Op.deletePVC pvc.name ∈ sweepDeletes env pods pvcs pvs := by
  unfold sweepDeletes
  refine List.mem_append_left _ (List.mem_append_right _ ?_)
  simp only [List.mem_flatten, List.mem_map]
  exact ⟨_, ⟨pvc, h, rfl⟩, List.mem_cons_self _ _⟩

theorem mem_sweepDeletes_pv (env : SweepEnv) (pods : List Pod) (pvcs : List PVC)
    (pvs : List String) (pv : String) (h : pv ∈ pvs) :
    Op.deletePV pv ∈ sweepDeletes env pods pvcs pvs := by
  unfold sweepDeletes
  refine List.mem_append_right _ ?_
  simp only [List.mem_flatten, List.mem_map]
  exact ⟨_, ⟨pv, h, rfl⟩, List.mem_cons_self _ _⟩

/-- Claim C9: cleanup-phase failures never fail the overall operation.  The
per-volume cleanup after copy returns success unconditionally (whatever
the three delete outcomes) while still issuing all three deletes and
reporting each failure as a warning; the confirmed sweep also returns
success and issues the delete of every found object regardless of
individual delete failures. -/
theorem C9_cleanup_best_effort (denv : DeleteEnv) (v : String)
    (env : SweepEnv) (pods : List Pod) (pvcs : List PVC) (pvs : List String)
    (hp : env.pods = .ok pods) (hc : env.pvcs = .ok pvcs) (hv : env.pvs = .ok pvs)
    (hr : env.response = "y") :
    (cleanupTemporaryResources denv v).1 = .ok () ∧
    Op.deletePod ("lhc-temp-pod-" ++ v) ∈ (cleanupTemporaryResources denv v).2 ∧
    Op.deletePVC ("lhc-temp-pvc-" ++ v) ∈ (cleanupTemporaryResources denv v).2 ∧
    Op.deletePV ("lhc-temp-pv-" ++ v) ∈ (cleanupTemporaryResources denv v).2 ∧
    (∀ e, denv.deletePod ("lhc-temp-pod-" ++ v) = some e →
      Op.warn ("Warning: failed to delete temporary pod " ++ ("lhc-temp-pod-" ++ v) ++ ": " ++ e)
        ∈ (cleanupTemporaryResources denv v).2) ∧
    (CleanupTemporaryResources env).1 = .ok () ∧
    (∀ pod, pod ∈ pods → Op.deletePod pod.name ∈ (CleanupTemporaryResources env).2) ∧
    (∀ pvc, pvc ∈ pvcs → Op.deletePVC pvc.name ∈ (CleanupTemporaryResources env).2) ∧
    (∀ pv, pv ∈ pvs → Op.deletePV pv ∈ (CleanupTemporaryResources env).2) := by
  have hsweep : (pods = [] ∧ pvcs = [] ∧ pvs = []) ∨
      CleanupTemporaryResources env =
        (.ok (), [Op.listPods, Op.listPVCs, Op.listPVs, Op.prompt]
                 ++ sweepDeletes env pods pvcs pvs) := by
    by_cases h0 : pods.length + pvcs.length + pvs.length = 0
    · exact Or.inl ⟨List.length_eq_zero.mp (by omega),
        List.length_eq_zero.mp (by omega), List.length_eq_zero.mp (by omega)⟩
    · right
      simp only [CleanupTemporaryResources, hp, hc, hv]
      rw [if_neg (by simpa using h0), if_neg (by simp [hr])]
  have hok : (CleanupTemporaryResources env).1 = .ok () := by
    rcases hsweep with ⟨h1, h2, h3⟩ | h
    · subst h1; subst h2; subst h3
      simp [CleanupTemporaryResources, hp, hc, hv]
    · rw [h]
  refine ⟨rfl, ?_, ?_, ?_, ?_, hok, ?_, ?_, ?_⟩
  · simp only [cleanupTemporaryResources]
    rcases denv.deletePod ("lhc-temp-pod-" ++ v) with _ | e <;> simp
  · simp only [cleanupTemporaryResources]
    rcases denv.deletePod ("lhc-temp-pod-" ++ v) with _ | e <;>
      rcases denv.deletePVC ("lhc-temp-pvc-" ++ v) with _ | e2 <;> simp
  · simp only [cleanupTemporaryResources]
    rcases denv.deletePod ("lhc-temp-pod-" ++ v) with _ | e <;>
      rcases denv.deletePVC ("lhc-temp-pvc-" ++ v) with _ | e2 <;>
      rcases denv.deletePV ("lhc-temp-pv-" ++ v) with _ | e3 <;> simp
  · intro e he
    simp only [cleanupTemporaryResources, he]
    rcases denv.deletePVC ("lhc-temp-pvc-" ++ v) with _ | e2 <;>
      rcases denv.deletePV ("lhc-temp-pv-" ++ v) with _ | e3 <;> simp
  · intro pod hpod
    rcases hsweep with ⟨h1, _, _⟩ | h
    · subst h1; cases hpod
    · rw [h]
      exact List.mem_append_right _ (mem_sweepDeletes_pod env pods pvcs pvs pod hpod)
  · intro pvc hpvc
    rcases hsweep with ⟨_, h2, _⟩ | h
    · subst h2; cases hpvc
    · rw [h]
      exact List.mem_append_right _ (mem_sweepDeletes_pvc env pods pvcs pvs pvc hpvc)
  · intro pv hpv
    rcases hsweep with ⟨_, _, h3⟩ | h
    · subst h3; cases hpv
    · rw [h]
      exact List.mem_append_right _ (mem_sweepDeletes_pv env pods pvcs pvs pv hpv)

/-- Sweep environment with an affirmative response and failing deletes, for
the C9 witness. -/
def envSweepYes : SweepEnv :=
  { envSweepNo with response := "y" }

/-- Delete environment where every delete fails, for the C9 witness. -/
def denvFail : DeleteEnv where
  deletePod := fun _ => some "timeout"
  deletePVC := fun _ => some "timeout"
  deletePV := fun _ => some "timeout"

/-- Witness for C9 at concrete inputs where every delete fails: both cleanup
functions still succeed and still issue all deletions. -/
theorem C9_cleanup_best_effort_witness :
    (cleanupTemporaryResources denvFail "vol-a").1 = .ok () ∧
    Op.deletePV ("lhc-temp-pv-" ++ "vol-a") ∈ (cleanupTemporaryResources denvFail "vol-a").2 ∧
    (CleanupTemporaryResources envSweepYes).1 = .ok () ∧
    Op.deletePod "lhc-temp-pod-x" ∈ (CleanupTemporaryResources envSweepYes).2 := by
  have h := C9_cleanup_best_effort denvFail "vol-a" envSweepYes
    [⟨"lhc-temp-pod-x", PodPhase.Running, [], []⟩]
    [⟨"lhc-temp-pvc-x", "lhc-temp-pv-x", ClaimPhase.Bound⟩]
    ["lhc-temp-pv-x"] rfl rfl rfl rfl
  exact ⟨h.1, h.2.2.2.1, h.2.2.2.2.2.1,
    h.2.2.2.2.2.2.1 ⟨"lhc-temp-pod-x", PodPhase.Running, [], []⟩ (by simp)⟩

/-! ## C6 — destination clearing -/

/-- Cluster with two in-use volumes, each mounted by a distinct running pod:
`vol-a` at `/data-a` in container `ca` of `pod-a`, `vol-b` at `/data-b` in
container `cb` of `pod-b`. -/
def envCopy : Env :=
  { env0 with
    volumes := .ok [⟨"vol-a", "1Gi", "attached", "pv-a"⟩, ⟨"vol-b", "1Gi", "attached", "pv-b"⟩],
    pvcList := .ok [⟨"claim-a", "pv-a", ClaimPhase.Bound⟩, ⟨"claim-b", "pv-b", ClaimPhase.Bound⟩],
    podList := .ok [⟨"pod-a", PodPhase.Running, [⟨"da", some "claim-a"⟩],
                      [⟨"ca", [⟨"da", "/data-a"⟩]⟩]⟩,
                    ⟨"pod-b", PodPhase.Running, [⟨"db", some "claim-b"⟩],
                      [⟨"cb", [⟨"db", "/data-b"⟩]⟩]⟩] }

/-- Same cluster, but the destination pod rejects the clearing command. -/
def envC6 : Env :=
  { envCopy with
    exec := fun pod _ _ => if pod == "pod-b" then .error "permission denied" else .ok () }

/-- Claim C6: the destination mount root is cleared before streaming and a
clearing failure aborts the copy before the stream starts — both hold —
but the clearing command `rm -rf d/* d/.[^.] d/..?*` does NOT remove all
hidden entries: the middle glob matches only two-character names (the
trailing `*` of the standard `.[^.]*` idiom is missing), so a hidden
entry such as `.abc` (length ≥ 3, not starting with `..`) matches none of
the three patterns and survives the clear. -/
theorem C6_clear_misses_hidden_entries :
    clearCommand "/data-b" = ["sh", "-c", "rm -rf /data-b/* /data-b/.[^.] /data-b/..?*"] ∧
    clearRemoves ".abc" = false ∧
    ".abc".toList.head? = some '.' ∧ ".abc" ≠ "." ∧ ".abc" ≠ ".." ∧
    clearRemoves "data.txt" = true ∧ clearRemoves ".a" = true ∧
    clearRemoves "..tmp" = true ∧
    (CopyVolume envC6 none none "vol-a" "vol-b").1 =
      .error ("failed to clear destination: " ++ "permission denied") ∧
    Op.stream ∉ (CopyVolume envC6 none none "vol-a" "vol-b").2 ∧
    (CopyVolume envCopy none none "vol-a" "vol-b").2 =
      [Op.listVolumes, Op.listPVCs, Op.listPods, Op.listPVCs, Op.listPods,
       Op.listVolumes, Op.listPVCs, Op.listPods, Op.listPVCs, Op.listPods,
       Op.execCmd "pod-b" (clearCommand "/data-b"),
       Op.execCmd "pod-a" ["ls", "-la", "/data-a"], Op.stream,
       Op.execCmd "pod-b" ["ls", "-la", "/data-b"]] := by
  refine ⟨rfl, rfl, rfl, by decide, by decide, rfl, rfl, rfl, rfl, ?_, rfl⟩
  show Op.stream ∉
    [Op.listVolumes, Op.listPVCs, Op.listPods, Op.listPVCs, Op.listPods,
     Op.listVolumes, Op.listPVCs, Op.listPods, Op.listPVCs, Op.listPods,
     Op.execCmd "pod-b" (clearCommand "/data-b")]
  simp

/-! ## Helper lemmas about the provisioner traces and results -/

theorem tempPodGetOrCreate_ok_handle (env : Env) (v : String) (h : Handle)
    (hok : (tempPodGetOrCreate env v).1 = .ok h) :
    h = ("lhc-temp-pod-" ++ v, "/mnt/volume", "temp-container") := by
  simp only [tempPodGetOrCreate] at hok
  repeat' split at hok
  all_goals simp_all

theorem createTemporaryPodForLonghorn_ok_handle (env : Env) (v : String) (h : Handle)
    (hok : (createTemporaryPodForLonghorn env v).1 = .ok h) :
    h = ("lhc-temp-pod-" ++ v, "/mnt/volume", "temp-container") := by
  simp only [createTemporaryPodForLonghorn] at hok
  repeat' split at hok
  all_goals simp_all
  exact tempPodGetOrCreate_ok_handle env v h hok

theorem marker_notin_createTemporaryPV (env : Env) (v s : String) :
    Op.snapshotAccessMarker s ∉ (createTemporaryPV env v).2 := by
  simp only [createTemporaryPV]
  repeat' split
  all_goals simp

theorem marker_notin_tempPodGetOrCreate (env : Env) (v s : String) :
    Op.snapshotAccessMarker s ∉ (tempPodGetOrCreate env v).2 := by
  cases hg : env.getPVC ("lhc-temp-pvc-" ++ v) with
  | ok a =>
    simp only [tempPodGetOrCreate, hg]
    repeat' split
    all_goals simp
  | error e =>
    cases hc : env.createPVC ("lhc-temp-pvc-" ++ v) with
    | error e2 =>
      simp only [tempPodGetOrCreate, hg, hc]
      simp
    | ok a =>
      cases hw : (waitClaimBound env).1 with
      | error e3 =>
        simp only [tempPodGetOrCreate, hg, hc, hw]
        simp
      | ok a2 =>
        simp only [tempPodGetOrCreate, hg, hc, hw]
        repeat' split
        all_goals simp

theorem marker_notin_createTemporaryPodForLonghorn (env : Env) (v s : String) :
    Op.snapshotAccessMarker s ∉ (createTemporaryPodForLonghorn env v).2 := by
  have h1 := marker_notin_createTemporaryPV env v s
  have h2 := marker_notin_tempPodGetOrCreate env v s
  simp only [createTemporaryPodForLonghorn]
  cases hv : getLonghornVolume env v with
  | error e => simp
  | ok vol =>
    rcases hpv : createTemporaryPV env v with ⟨r, t⟩
    rw [hpv] at h1
    cases r with
    | error e => simpa using h1
    | ok x => simpa using ⟨h1, h2⟩

theorem marker_notin_isVolumeInUse (env : Env) (pv s : String) :
    Op.snapshotAccessMarker s ∉ (isVolumeInUse env pv).2 := by
  simp only [isVolumeInUse]
  repeat' split
  all_goals simp

theorem isVolumeInUse_trace (env : Env) (pv : String) :
    (isVolumeInUse env pv).2 = [Op.listPVCs] ∨
    (isVolumeInUse env pv).2 = [Op.listPVCs, Op.listPods] := by
  simp only [isVolumeInUse]
  repeat' split
  all_goals simp

theorem findExistingPodForVolume_trace (env : Env) (pv : String) :
    (findExistingPodForVolume env pv).2 = [Op.listPVCs] ∨
    (findExistingPodForVolume env pv).2 = [Op.listPVCs, Op.listPods] := by
  simp only [findExistingPodForVolume]
  repeat' split
  all_goals simp

theorem getPV_mem_createTemporaryPV (env : Env) (v : String) :
    Op.getPV ("lhc-temp-pv-" ++ v) ∈ (createTemporaryPV env v).2 := by
  simp only [createTemporaryPV]
  repeat' split
  all_goals simp

theorem createPV_mem_createTemporaryPV (env : Env) (v : String) (er : ApiErr)
    (vol : LonghornVolume)
    (her : env.getPV ("lhc-temp-pv-" ++ v) = .error er)
    (hvol : getLonghornVolume env v = .ok vol) :
    Op.createPV ("lhc-temp-pv-" ++ v) ∈ (createTemporaryPV env v).2 := by
  simp only [createTemporaryPV, her, hvol]
  cases env.createPV ("lhc-temp-pv-" ++ v) <;> simp

/-! ## Soundness of the existing-mount search -/

theorem findMountForVolume_sound (pod : Pod) (vn mp cn : String)
    (h : findMountForVolume pod vn = some (mp, cn)) :
    ∃ c ∈ pod.containers, c.name = cn ∧
      ∃ m ∈ c.volumeMounts, m.name = vn ∧ m.mountPath = mp := by
  unfold findMountForVolume at h
  obtain ⟨c, hc, hcf⟩ := List.exists_of_findSome?_eq_some h
  rcases hm : c.volumeMounts.find? (fun m => m.name == vn) with _ | m
  · rw [hm] at hcf; simp at hcf
  · rw [hm] at hcf
    simp only [Option.map_some', Option.some.injEq, Prod.mk.injEq] at hcf
    obtain ⟨h1, h2⟩ := hcf
    exact ⟨c, hc, h2, m, List.mem_of_find?_eq_some hm,
      by simpa using List.find?_some hm, h1⟩

theorem findInPod_sound (pod : Pod) (t pn mp cn : String)
    (h : findInPod pod t = some (pn, mp, cn)) :
    pn = pod.name ∧ ∃ pv ∈ pod.volumes, pv.claimName = some t ∧
      ∃ c ∈ pod.containers, c.name = cn ∧
      ∃ m ∈ c.volumeMounts, m.name = pv.name ∧ m.mountPath = mp := by
  unfold findInPod at h
  obtain ⟨pv, hpv, hvf⟩ := List.exists_of_findSome?_eq_some h
  cases hcond : pv.claimName == some t with
  | false => rw [hcond] at hvf; simp at hvf
  | true =>
    rw [hcond] at hvf
    simp only [if_true] at hvf
    rcases hfm : findMountForVolume pod pv.name with _ | mc
    · rw [hfm] at hvf; simp at hvf
    · rw [hfm] at hvf
      simp only [Option.map_some', Option.some.injEq, Prod.mk.injEq] at hvf
      obtain ⟨h1, h2, h3⟩ := hvf
      obtain ⟨c, hc, hcn, m, hm, hmn, hmp⟩ :=
        findMountForVolume_sound pod pv.name mc.1 mc.2 (by rw [hfm])
      exact ⟨h1.symm, pv, hpv, by simpa using hcond, c, hc, by rw [← h3]; exact hcn,
        m, hm, hmn, by rw [← h2]; exact hmp⟩

theorem findExistingPodForVolume_sound (env : Env) (pv pn mp cn : String)
    (h : (findExistingPodForVolume env pv).1 = .ok (pn, mp, cn)) :
    ∃ pvcs, env.pvcList = .ok pvcs ∧
    ∃ pvc ∈ pvcs, pvc.volumeName = pv ∧ pvc.phase = ClaimPhase.Bound ∧
    ∃ pods, env.podList = .ok pods ∧
    ∃ pod ∈ pods, pod.phase = PodPhase.Running ∧ pod.name = pn ∧
    ∃ pvol ∈ pod.volumes, pvol.claimName = some pvc.name ∧
    ∃ c ∈ pod.containers, c.name = cn ∧
    ∃ m ∈ c.volumeMounts, m.name = pvol.name ∧ m.mountPath = mp := by
  unfold findExistingPodForVolume at h
  cases hl : env.pvcList with
  | error e => rw [hl] at h; simp at h
  | ok pvcs =>
    rw [hl] at h
    simp only [] at h
    rcases hfp : pvcs.find?
        (fun pvc => pvc.volumeName == pv && pvc.phase == ClaimPhase.Bound) with _ | target
    · rw [hfp] at h; simp at h
    · rw [hfp] at h
      simp only [] at h
      cases hpl : env.podList with
      | error e => rw [hpl] at h; simp at h
      | ok pods =>
        rw [hpl] at h
        simp only [] at h
        rcases hfs : pods.findSome? (fun pod =>
            if pod.phase == PodPhase.Running then findInPod pod target.name else none)
          with _ | hd
        · rw [hfs] at h; simp at h
        · rw [hfs] at h
          simp only [Except.ok.injEq] at h
          obtain ⟨pod, hpod, hpf⟩ := List.exists_of_findSome?_eq_some hfs
          cases hrun : pod.phase == PodPhase.Running with
          | false => rw [hrun] at hpf; simp at hpf
          | true =>
            rw [hrun] at hpf
            simp only [if_true] at hpf
            have hsound := findInPod_sound pod target.name pn mp cn (by rw [hpf, h])
            have hpred := List.find?_some hfp
            simp only [Bool.and_eq_true, beq_iff_eq] at hpred
            exact ⟨pvcs, rfl, target, List.mem_of_find?_eq_some hfp, hpred.1, hpred.2,
              pods, rfl, pod, hpod, by simpa using hrun, hsound.1.symm, hsound.2⟩

/-! ## C3 — in-use volumes resolve to the existing mounting pod -/

/-- Claim C3: for a volume reported in use whose mounting workload is
discoverable, the resolver returns exactly that pod's name, mount path and
container name, performs no provisioning (no create of PV, PVC or pod),
and the returned handle really is a running pod with a matching volume
mount for the claim bound to the volume's PV. -/
theorem C3_in_use_returns_existing_mount (env : Env) (v : String) (vol : LonghornVolume)
    (pn mp cn : String) (tIU tFE : List Op)
    (hvol : getLonghornVolume env v = .ok vol)
    (hpv : vol.pvName ≠ "")
    (hiu : isVolumeInUse env vol.pvName = (.ok true, tIU))
    (hfe : findExistingPodForVolume env vol.pvName = (.ok (pn, mp, cn), tFE)) :
    getVolumeInfo env v = (.ok (pn, mp, cn), Op.listVolumes :: tIU ++ tFE) ∧
    (∀ n, Op.createPV n ∉ (getVolumeInfo env v).2) ∧
    (∀ n, Op.createPVC n ∉ (getVolumeInfo env v).2) ∧
    (∀ n, Op.createPod n ∉ (getVolumeInfo env v).2) ∧
    (∃ pvcs, env.pvcList = .ok pvcs ∧
     ∃ pvc ∈ pvcs, pvc.volumeName = vol.pvName ∧ pvc.phase = ClaimPhase.Bound ∧
     ∃ pods, env.podList = .ok pods ∧
     ∃ pod ∈ pods, pod.phase = PodPhase.Running ∧ pod.name = pn ∧
     ∃ pvol ∈ pod.volumes, pvol.claimName = some pvc.name ∧
     ∃ c ∈ pod.containers, c.name = cn ∧
     ∃ m ∈ c.volumeMounts, m.name = pvol.name ∧ m.mountPath = mp) := by
  have hpvf : (vol.pvName == "") = false := by simp [hpv]
  have hmain : getVolumeInfo env v = (.ok (pn, mp, cn), Op.listVolumes :: tIU ++ tFE) := by
    simp [getVolumeInfo, hvol, hpvf, hiu, hfe]
  have htIU : tIU = [Op.listPVCs] ∨ tIU = [Op.listPVCs, Op.listPods] := by
    have := isVolumeInUse_trace env vol.pvName
    rw [hiu] at this
    simpa using this
  have htFE : tFE = [Op.listPVCs] ∨ tFE = [Op.listPVCs, Op.listPods] := by
    have := findExistingPodForVolume_trace env vol.pvName
    rw [hfe] at this
    simpa using this
  refine ⟨hmain, ?_, ?_, ?_, ?_⟩
  · intro n
    rw [hmain]
    rcases htIU with h1 | h1 <;> rcases htFE with h2 | h2 <;> subst h1 <;> subst h2 <;> simp
  · intro n
    rw [hmain]
    rcases htIU with h1 | h1 <;> rcases htFE with h2 | h2 <;> subst h1 <;> subst h2 <;> simp
  · intro n
    rw [hmain]
    rcases htIU with h1 | h1 <;> rcases htFE with h2 | h2 <;> subst h1 <;> subst h2 <;> simp
  · exact findExistingPodForVolume_sound env vol.pvName pn mp cn (by rw [hfe])

/-- Witness for C3 at the two-pod cluster `envCopy`: resolving the in-use
volume `vol-a` yields the already-mounting pod `pod-a`. -/
theorem C3_in_use_returns_existing_mount_witness :
    getVolumeInfo envCopy "vol-a" =
      (.ok ("pod-a", "/data-a", "ca"),
       Op.listVolumes :: [Op.listPVCs, Op.listPods] ++ [Op.listPVCs, Op.listPods]) ∧
    Op.createPod "lhc-temp-pod-vol-a" ∉ (getVolumeInfo envCopy "vol-a").2 := by
  have h := C3_in_use_returns_existing_mount envCopy "vol-a"
    ⟨"vol-a", "1Gi", "attached", "pv-a"⟩ "pod-a" "/data-a" "ca"
    [Op.listPVCs, Op.listPods] [Op.listPVCs, Op.listPods] rfl (by decide) rfl rfl
  exact ⟨h.1, h.2.2.2.1 "lhc-temp-pod-vol-a"⟩

/-! ## C4 — not-in-use volumes never reach the snapshot fallback -/

/-- Claim C4: whenever the in-use check reports "not in use" (or the volume
has no bound PV recorded, skipping the check), the resolver never enters
the indirect/snapshot fallback: no snapshot-access announcement appears in
its operation trace. -/
theorem C4_not_in_use_never_snapshot (env : Env) (v : String) (vol : LonghornVolume)
    (hvol : getLonghornVolume env v = .ok vol)
    (hnot : vol.pvName = "" ∨ (isVolumeInUse env vol.pvName).1 = .ok false) :
    ∀ s, Op.snapshotAccessMarker s ∉ (getVolumeInfo env v).2 := by
  intro s
  by_cases hpn : vol.pvName = ""
  · have hpvt : (vol.pvName == "") = true := by simp [hpn]
    simp only [getVolumeInfo, hvol, hpvt, if_true]
    rcases hpv : createTemporaryPV env v with ⟨r, t⟩
    have h1 := marker_notin_createTemporaryPV env v s
    rw [hpv] at h1
    have h2 := marker_notin_createTemporaryPodForLonghorn env v s
    cases r with
    | error e => simpa using h1
    | ok x => simpa using ⟨h1, h2⟩
  · have hfalse := hnot.resolve_left hpn
    have hpvf : (vol.pvName == "") = false := by simp [hpn]
    simp only [getVolumeInfo, hvol, hpvf, if_false]
    rcases hiu : isVolumeInUse env vol.pvName with ⟨r, t⟩
    rw [hiu] at hfalse
    simp only [] at hfalse
    subst hfalse
    have h1 := marker_notin_isVolumeInUse env vol.pvName s
    rw [hiu] at h1
    have h2 := marker_notin_createTemporaryPodForLonghorn env v s
    simpa using ⟨h1, h2⟩

/-- Environment with a single detached volume that has a recorded PV but no
claim bound to it: reported not in use. -/
def envC10 : Env :=
  { env0 with volumes := .ok [⟨"vol-a", "1Gi", "detached", "pv-a"⟩] }

/-- Witness for C4 at a not-in-use volume with a recorded PV. -/
theorem C4_not_in_use_never_snapshot_witness :
    Op.snapshotAccessMarker "vol-a" ∉ (getVolumeInfo envC10 "vol-a").2 :=
  C4_not_in_use_never_snapshot envC10 "vol-a" ⟨"vol-a", "1Gi", "detached", "pv-a"⟩
    rfl (Or.inr rfl) "vol-a"

/-! ## C5 — provisioning is idempotent -/

/-- Claim C5: with the canonical temporary PV, PVC and a running temporary
pod already present (the state right after a successful first Provision),
a second Provision call returns the same canonical access handle, performs
only the four read operations, and creates nothing; moreover every
successful Provision returns that same canonical handle. -/
theorem C5_provision_idempotent (env : Env) (v : String) (vol : LonghornVolume)
    (hvol : getLonghornVolume env v = .ok vol)
    (hpv : env.getPV ("lhc-temp-pv-" ++ v) = .ok ())
    (hpvc : env.getPVC ("lhc-temp-pvc-" ++ v) = .ok ())
    (hpod : env.getPod ("lhc-temp-pod-" ++ v) = .ok PodPhase.Running) :
    createTemporaryPodForLonghorn env v =
      (.ok ("lhc-temp-pod-" ++ v, "/mnt/volume", "temp-container"),
       [Op.listVolumes, Op.getPV ("lhc-temp-pv-" ++ v), Op.getPVC ("lhc-temp-pvc-" ++ v),
        Op.getPod ("lhc-temp-pod-" ++ v)]) ∧
    (∀ env2 h2, (createTemporaryPodForLonghorn env2 v).1 = .ok h2 →
      h2 = ("lhc-temp-pod-" ++ v, "/mnt/volume", "temp-container")) := by
  constructor
  · simp [createTemporaryPodForLonghorn, createTemporaryPV, tempPodGetOrCreate,
      isRunningCheck, hvol, hpv, hpvc, hpod]
  · intro env2 h2 hok
    exact createTemporaryPodForLonghorn_ok_handle env2 v h2 hok

/-- Environment in which all three canonical temporary objects already exist
and the pod is running: the state after a successful first Provision. -/
def envReuse : Env :=
  { env0 with
    volumes := .ok [⟨"vol-a", "1Gi", "detached", ""⟩],
    getPV := fun _ => .ok (),
    getPVC := fun _ => .ok (),
    getPod := fun _ => .ok PodPhase.Running }

/-- Witness for C5: the repeated Provision call on the already-provisioned
state returns the canonical handle with a read-only trace. -/
theorem C5_provision_idempotent_witness :
    createTemporaryPodForLonghorn envReuse "vol-a" =
      (.ok ("lhc-temp-pod-" ++ "vol-a", "/mnt/volume", "temp-container"),
       [Op.listVolumes, Op.getPV ("lhc-temp-pv-" ++ "vol-a"),
        Op.getPVC ("lhc-temp-pvc-" ++ "vol-a"), Op.getPod ("lhc-temp-pod-" ++ "vol-a")]) :=
  (C5_provision_idempotent envReuse "vol-a" ⟨"vol-a", "1Gi", "detached", ""⟩
    rfl rfl rfl rfl).1

/-! ## C10 — the not-in-use handle is the ephemeral one -/

/-- Claim C10: for a volume resolved as not in use, every successful
resolution returns the ephemeral handle (`lhc-temp-pod-<v>`,
`/mnt/volume`, `temp-container`), and the temporary-PV get-or-create on
`lhc-temp-pv-<v>` is attempted by the pod-provisioning path even when the
volume already has a bound PV recorded (making the resolver's
empty-PVName guard redundant): its lookup always appears in the trace,
and when the lookup errors the create call follows. -/
theorem C10_not_in_use_ephemeral_handle (env : Env) (v : String) (vol : LonghornVolume)
    (tIU : List Op)
    (hvol : getLonghornVolume env v = .ok vol)
    (hpv : vol.pvName ≠ "")
    (hiu : isVolumeInUse env vol.pvName = (.ok false, tIU)) :
    (∀ h, (getVolumeInfo env v).1 = .ok h →
      h = ("lhc-temp-pod-" ++ v, "/mnt/volume", "temp-container")) ∧
    Op.getPV ("lhc-temp-pv-" ++ v) ∈ (getVolumeInfo env v).2 ∧
    (∀ er, env.getPV ("lhc-temp-pv-" ++ v) = .error er →
      Op.createPV ("lhc-temp-pv-" ++ v) ∈ (getVolumeInfo env v).2) := by
  have hpvf : (vol.pvName == "") = false := by simp [hpv]
  have hgvi : getVolumeInfo env v =
      ((createTemporaryPodForLonghorn env v).1,
       Op.listVolumes :: tIU ++ (createTemporaryPodForLonghorn env v).2) := by
    simp [getVolumeInfo, hvol, hpvf, hiu]
  have hpodtrace : ∀ o, o ∈ (createTemporaryPV env v).2 →
      o ∈ (createTemporaryPodForLonghorn env v).2 := by
    intro o ho
    simp only [createTemporaryPodForLonghorn, hvol]
    rcases hcp : createTemporaryPV env v with ⟨r, t⟩
    rw [hcp] at ho
    cases r with
    | error e => simp [ho]
    | ok x => simp [ho]
  refine ⟨?_, ?_, ?_⟩
  · intro h hok
    rw [hgvi] at hok
    exact createTemporaryPodForLonghorn_ok_handle env v h hok
  · rw [hgvi]
    have := hpodtrace _ (getPV_mem_createTemporaryPV env v)
    simp [this]
  · intro er her
    rw [hgvi]
    have := hpodtrace _ (createPV_mem_createTemporaryPV env v er vol her hvol)
    simp [this]

/-- Witness for C10 at `envC10`: the volume has PV name `pv-a` recorded yet
the temporary-PV lookup and creation both appear in the trace, and the
resolution succeeds with the ephemeral handle. -/
theorem C10_not_in_use_ephemeral_handle_witness :
    Op.getPV ("lhc-temp-pv-" ++ "vol-a") ∈ (getVolumeInfo envC10 "vol-a").2 ∧
    Op.createPV ("lhc-temp-pv-" ++ "vol-a") ∈ (getVolumeInfo envC10 "vol-a").2 ∧
    ("lhc-temp-pod-" ++ "vol-a", "/mnt/volume", "temp-container") =
      ("lhc-temp-pod-" ++ "vol-a", "/mnt/volume", "temp-container") := by
  have h := C10_not_in_use_ephemeral_handle envC10 "vol-a"
    ⟨"vol-a", "1Gi", "detached", "pv-a"⟩ [Op.listPVCs] rfl (by decide) rfl
  exact ⟨h.2.1, h.2.2 ApiErr.notFound rfl,
    h.1 ("lhc-temp-pod-" ++ "vol-a", "/mnt/volume", "temp-container") rfl⟩

end LonghornTools
